import Mathlib

/-!
Shallow embedding of the command/flag registration and dispatch front end of
the minio-xl binary (src/main.go) and of the filesystem-type lookup
(src/unnamed/part_000), together with theorems settling the specification
claims about it.
-/

namespace MinioXL

/-!
## PrefixTrie

Modelled from the spec: the PrefixTrie implementation (pkg/trie of this
repository) is not under src/; only its caller `findClosestCommands` is.
Per spec section 4.1: `Insert(key, value)` walks the key character by
character from the root, creating nodes as needed, and marks the final node
terminal with `value` (re-insertion overwrites). `PrefixMatch(prefix)` walks
the trie consuming the query one character at a time; a missing child yields
the empty sequence; otherwise every terminal value in the subtree below the
reached node is collected in a deterministic stable order (here: the node's
own terminal value first, then the children in insertion order). An empty
query returns every registered value.
-/

/-- A trie node: an optional terminal value and an insertion-ordered
association list from characters to child nodes. -/
inductive TrieNode : Type where
  | mk : Option String → List (Char × TrieNode) → TrieNode

/-- Terminal value carried by a node. -/
def TrieNode.value : TrieNode → Option String
  | .mk v _ => v

/-- Children of a node, in insertion order. -/
def TrieNode.children : TrieNode → List (Char × TrieNode)
  | .mk _ c => c

/-- The empty trie: no terminal value, no children. -/
def TrieNode.empty : TrieNode := .mk none []

/-- Replace the child for character `c` by `n`, or append it if absent. -/
def setChild : List (Char × TrieNode) → Char → TrieNode → List (Char × TrieNode)
  | [], c, n => [(c, n)]
  | (c₀, t) :: rest, c, n =>
    if c₀ = c then (c₀, n) :: rest else (c₀, t) :: setChild rest c n

/-- Modelled from the spec: trie insertion, walking the key character by
character and creating nodes as needed; the final node becomes terminal
with value `v` (overwriting any previous terminal value). -/
def TrieNode.insert : TrieNode → List Char → String → TrieNode
  | .mk _ ch, [], v => .mk (some v) ch
  | .mk val ch, c :: rest, v =>
    let child := ((ch.lookup c).getD TrieNode.empty).insert rest v
    .mk val (setChild ch c child)

/-- Walk the trie consuming the query one character at a time; `none` when
some character has no matching child. -/
def TrieNode.findNode : TrieNode → List Char → Option TrieNode
  | t, [] => some t
  | t, c :: rest =>
    match t.children.lookup c with
    | none => none
    | some child => child.findNode rest

mutual
/-- Collect every terminal value in the subtree: the node's own terminal
value first, then the children in order. -/
def TrieNode.collect : TrieNode → List String
  | .mk val ch => val.toList ++ collectChildren ch

/-- Collect over a child list, preserving order. -/
def collectChildren : List (Char × TrieNode) → List String
  | [] => []
  | (_, t) :: rest => t.collect ++ collectChildren rest
end

/-- Modelled from the spec: `PrefixMatch` walks the query and collects every
terminal value below the reached node; a failed walk yields the empty
sequence. -/
def TrieNode.PrefixMatch (t : TrieNode) (query : String) : List String :=
  match t.findNode query.toList with
  | none => []
  | some n => n.collect

/-!
## findClosestCommands and the command-not-found handler (src/main.go)
-/

/-- Embeds `findClosestCommands` (src/main.go lines 84-90): the loop appends
each `PrefixMatch` value, asserted to string, to the result slice. In this
model the trie already stores strings, so the type assertion is the
identity. -/
def findClosestCommands (t : TrieNode) (command : String) : List String :=
  (t.PrefixMatch command).foldl (fun acc v => acc ++ [v]) []

/-- Outcome of the command-not-found handler: the message handed to
`Fatalln`, and whether the process exits with a non-zero status.
`Fatalln` (pkg console of this repository) is not under src/; modelled from
the spec: it prints the message and terminates with a non-zero exit. -/
structure NotFoundOutcome where
  message : String
  exitNonZero : Bool

/-- Embeds `app.CommandNotFound` (src/main.go lines 142-152): build the base
message, append a did-you-mean section when suggestions exist, then call
`Fatalln` unconditionally. -/
def commandNotFound (t : TrieNode) (command : String) : NotFoundOutcome :=
  let msg := "‘" ++ command ++ "’ is not a minio-xl sub-command. See ‘minio-xl help’."
  let closestCommands := findClosestCommands t command
  let msg :=
    if closestCommands.length > 0 then
      closestCommands.foldl
        (fun m cmd => m ++ "        ‘" ++ cmd ++ "’\n")
        (msg ++ "\n\nDid you mean one of these?\n")
    else msg
  { message := msg, exitNonZero := true }

/-- Base message of the handler, before any suggestion section. -/
def notFoundBaseMsg (command : String) : String :=
  "‘" ++ command ++ "’ is not a minio-xl sub-command. See ‘minio-xl help’."

/-- Concatenation of a list of strings. -/
def strConcat : List String → String
  | [] => ""
  | s :: rest => s ++ strConcat rest

/-- Rendering of the did-you-mean candidates as the spec describes them: an
ordered list, one line per candidate, in the order the prefix match
returned them. -/
def didYouMeanList (candidates : List String) : String :=
  strConcat (candidates.map (fun cmd => "        ‘" ++ cmd ++ "’\n"))

/-- The trie of the spec scenario: registry containing commands
server, gateway, controller, version. -/
def scenarioTrie : TrieNode :=
  (((TrieNode.empty.insert "server".toList "server").insert
      "gateway".toList "gateway").insert
      "controller".toList "controller").insert
      "version".toList "version"

/-!
## Diagnostics collection (src/main.go getSystemData)
-/

/-- Memory counters read from the runtime (`runtime.MemStats` fields that
`getSystemData` consumes). -/
structure MemStats where
  alloc : Nat
  totalAlloc : Nat
  heapAlloc : Nat
  heapSys : Nat

/-- Process and host state observed by `getSystemData`: hostname lookup
result (`os.Hostname` returns a value or an error), memory counters and the
runtime identification strings and CPU count. -/
structure SystemState where
  hostname : Except String String
  memstats : MemStats
  goos : String
  goarch : String
  goVersion : String
  numCPU : Nat

/-- Embeds `getSystemData` (src/main.go lines 60-82). A hostname lookup
error is replaced by the empty string; the three sections are formatted and
returned under the keys PLATFORM, RUNTIME and MEM. The external
`humanize.Bytes` rendering function is a parameter (it is a consumed
library, not repository code); `strconv.Itoa` is decimal rendering. -/
def getSystemData (humanizeBytes : Nat → String) (s : SystemState) :
    List (String × String) :=
  let host := match s.hostname with
    | Except.ok h => h
    | Except.error _ => ""
  let mem := "Used: " ++ humanizeBytes s.memstats.alloc ++ " | Allocated: "
    ++ humanizeBytes s.memstats.totalAlloc ++ " | Used-Heap: "
    ++ humanizeBytes s.memstats.heapAlloc ++ " | Allocated-Heap: "
    ++ humanizeBytes s.memstats.heapSys
  let platform := "Host: " ++ host ++ " | OS: " ++ s.goos ++ " | Arch: "
    ++ s.goarch
  let goruntime := "Version: " ++ s.goVersion ++ " | CPUs: "
    ++ toString s.numCPU
  [("PLATFORM", platform), ("RUNTIME", goruntime), ("MEM", mem)]

/-!
## Command registry (registerCommand is not under src/)
-/

/-- A command descriptor, per the spec data model: unique name, usage
summary, description. The action handler is an opaque callable owned by the
registry and plays no role in the registration logic, so it is not
carried here. -/
structure Command where
  name : String
  usage : String
  description : String

/-- The registry: the ordered command list and the shared trie. -/
structure Registry where
  commands : List Command
  tree : TrieNode

/-- The empty registry. -/
def Registry.empty : Registry := ⟨[], TrieNode.empty⟩

/-- Modelled from the spec: `registerCommand` is not under src/ (only its
callers in `registerApp` are). Per spec section 4.2, `RegisterCommand`
fails with a configuration error if the name already exists, and otherwise
appends to the ordered command list and inserts name → name into the
shared trie. The pair returned is the registry after the call and the
configuration error, if any. -/
def registerCommand (r : Registry) (cmd : Command) : Registry × Option String :=
  if (r.commands.map Command.name).contains cmd.name then
    (r, some ("Duplicate command name: " ++ cmd.name))
  else
    ({ commands := r.commands ++ [cmd],
       tree := r.tree.insert cmd.name.toList cmd.name }, none)

/-!
## Startup sequence (src/main.go init and main)
-/

/-- Which startup precondition failed, in the order init checks them. -/
inductive FatalCause : Type where
  | userLookupFailed
  | runningAsRoot
  | unsupportedGolangVersion
deriving DecidableEq

/-- The environment observed at startup: `user.Current` result,
`os.Geteuid`, and whether the Golang runtime version passes
`checkGolangRuntimeVersion` (that check lives outside src/; modelled from
the spec as a boolean compatibility precondition). -/
structure Env where
  currentUser : Except String String
  euid : Int
  golangVersionSupported : Bool

/-- Embeds `init` (src/main.go lines 43-56): resolve the current user
first (fatal on failure), then refuse to run as root (effective UID 0),
then check the Golang runtime version. Returns the fatal cause, if any. -/
def runInit (e : Env) : Option FatalCause :=
  match e.currentUser with
  | Except.error _ => some FatalCause.userLookupFailed
  | Except.ok _ =>
    if e.euid == 0 then some FatalCause.runningAsRoot
    else if e.golangVersionSupported then none
    else some FatalCause.unsupportedGolangVersion

/-- The commands registered by `registerApp` (src/main.go lines 94-97):
xlCmd, serverCmd, controllerCmd, versionCmd. Their descriptors are defined
outside src/; modelled from the spec with their command names. -/
def appCommands : List Command :=
  [⟨"xl", "", ""⟩, ⟨"server", "", ""⟩, ⟨"controller", "", ""⟩,
   ⟨"version", "", ""⟩]

/-- The flag names registered by `registerApp` (src/main.go lines 100-107).
The flag descriptors are defined outside src/; modelled from the spec as
the ordered list of registered flag names. -/
def appFlags : List String :=
  ["address", "address-controller", "address-server-rpc", "ratelimit",
   "anonymous", "cert", "key", "json"]

/-- Observable outcome of process startup: the fatal cause if a
precondition failed, and the registration side effects (command registry
and flag list) that occurred. -/
structure StartupOutcome where
  fatal : Option FatalCause
  registry : Registry
  flags : List String

/-- Embeds the startup order of src/main.go: the `init` function runs
before `main`, and `main` calls `registerApp`, which performs all command
and then all flag registration. If `init` hits a fatal condition the
process terminates there and no registration ever runs. -/
def runStartup (e : Env) : StartupOutcome :=
  match runInit e with
  | some cause => { fatal := some cause, registry := Registry.empty, flags := [] }
  | none =>
    let r := appCommands.foldl (fun acc c => (registerCommand acc c).1) Registry.empty
    { fatal := none, registry := r, flags := appFlags }

/-!
## Filesystem type lookup (src/unnamed/part_000)
-/

/-- Embeds `fsType2StringMap`: the filesystems supported by xl on linux,
keyed by the lowercase hexadecimal rendering of the statfs type. -/
def fsType2StringMap : List (String × String) :=
  [("1021994", "TMPFS"),
   ("137d", "EXT"),
   ("4244", "HFS"),
   ("4d44", "MSDOS"),
   ("52654973", "REISERFS"),
   ("5346544e", "NTFS"),
   ("58465342", "XFS"),
   ("61756673", "AUFS"),
   ("6969", "NFS"),
   ("ef51", "EXT2OLD"),
   ("ef53", "EXT4"),
   ("f15f", "ecryptfs")]

/-- Embeds Go's `strconv.FormatInt(i, 16)`: lowercase hexadecimal digits,
a leading minus sign for negative inputs, no leading zeros. -/
def formatIntHex (i : Int) : String :=
  if i < 0 then "-" ++ (Nat.toDigits 16 i.natAbs).asString
  else (Nat.toDigits 16 i.toNat).asString

/-- Embeds `getFSType` (src/unnamed/part_000 lines 38-45): render the type
in hexadecimal, look it up in the map, and return UNKNOWN when absent. -/
def getFSType (fsType : Int) : String :=
  let fsTypeHex := formatIntHex fsType
  match fsType2StringMap.lookup fsTypeHex with
  | none => "UNKNOWN"
  | some fsTypeString => fsTypeString

/-!
## Helper lemmas
-/

/-- Folding append of singletons starting from `acc` appends the list. -/
theorem foldl_push_eq : ∀ (l acc : List String),
    l.foldl (fun a v => a ++ [v]) acc = acc ++ l := by
  intro l
  induction l with
  | nil => intro acc; simp
  | cons x xs ih => intro acc; simp [List.foldl, ih]

/-- Folding string append of `f` over a list equals the initial string
followed by the concatenation of the rendered elements. -/
theorem foldl_strConcat (f : String → String) : ∀ (l : List String) (init : String),
    l.foldl (fun m c => m ++ f c) init = init ++ strConcat (l.map f) := by
  intro l
  induction l with
  | nil => intro init; simp [strConcat]
  | cons x xs ih => intro init; simp [List.foldl, ih, strConcat, String.append_assoc]

/-- A successful lookup returns a value paired with the queried key in the
list. -/
theorem mem_of_lookup_eq_some : ∀ (l : List (String × String)) (k v : String),
    l.lookup k = some v → (k, v) ∈ l := by
  intro l
  induction l with
  | nil => intro k v h; simp [List.lookup] at h
  | cons p rest ih =>
    intro k v h
    rw [List.lookup] at h
    rcases hb : (k == p.1) with _ | _
    · rw [hb] at h
      exact List.mem_cons_of_mem _ (ih k v h)
    · rw [hb] at h
      cases h
      have hk : k = p.1 := beq_iff_eq.mp hb
      subst hk
      exact List.mem_cons_self _ _

/-- Lookup of a key whose first character differs from the first character
of every key in the list fails. -/
theorem lookup_none_of_head (k : String) (c : Char) (hk : k.data.head? = some c) :
    ∀ (l : List (String × String)), (∀ p ∈ l, p.1.data.head? ≠ some c) →
      l.lookup k = none := by
  intro l
  induction l with
  | nil => intro _; rfl
  | cons p rest ih =>
    intro h
    have h1 : p.1.data.head? ≠ some c := h p (List.mem_cons_self _ _)
    have hne : (k == p.1) = false := by
      refine beq_eq_false_iff_ne.mpr ?_
      intro heq
      exact h1 (heq ▸ hk)
    rw [List.lookup, hne]
    exact ih (fun q hq => h q (List.mem_cons_of_mem _ hq))

/-!
## Claim theorems
-/

/-- C1: with the registry containing commands server, gateway, controller
and version, the not-found path with token "contro" yields exactly the one
suggestion "controller"; with token "zzz" it yields no suggestions but the
handler still exits with a non-zero status; and with the empty token it
yields all four registered command names as candidates. -/
theorem claim1_scenario_suggestions :
    findClosestCommands scenarioTrie "contro" = ["controller"] ∧
    findClosestCommands scenarioTrie "zzz" = [] ∧
    (commandNotFound scenarioTrie "zzz").exitNonZero = true ∧
    findClosestCommands scenarioTrie "" = ["server", "gateway", "controller", "version"] :=
  ⟨by decide, by decide, rfl, by decide⟩

/-- C2: for every unrecognized sub-command token, the command-not-found
handler exits with a non-zero status, regardless of the trie contents and
hence regardless of whether any suggestions were found. -/
theorem claim2_commandNotFound_always_fatal (t : TrieNode) (command : String) :
    (commandNotFound t command).exitNonZero = true := rfl

/-- C3: if the prefix-match result is non-empty the fatal message is the
base message followed by the did-you-mean section listing each matched
command, in order; if it is empty the message is exactly the base message,
with no did-you-mean section. -/
theorem claim3_didYouMean_message (t : TrieNode) (command : String) :
    (findClosestCommands t command ≠ [] →
      (commandNotFound t command).message =
        notFoundBaseMsg command ++ "\n\nDid you mean one of these?\n" ++
          didYouMeanList (findClosestCommands t command)) ∧
    (findClosestCommands t command = [] →
      (commandNotFound t command).message = notFoundBaseMsg command) := by
  constructor
  · intro hne
    have hlen : (findClosestCommands t command).length > 0 :=
      List.length_pos.mpr hne
    simp only [commandNotFound, notFoundBaseMsg, didYouMeanList, if_pos hlen]
    rw [show (fun (m cmd : String) => m ++ "        ‘" ++ cmd ++ "’\n")
          = (fun (m cmd : String) => m ++ ("        ‘" ++ cmd ++ "’\n")) from by
        funext m cmd
        simp [String.append_assoc]]
    rw [foldl_strConcat]
  · intro he
    simp [commandNotFound, notFoundBaseMsg, he]

/-- Witness for C3 at the scenario trie, on both branches. -/
theorem claim3_didYouMean_message_witness :
    (commandNotFound scenarioTrie "contro").message =
      notFoundBaseMsg "contro" ++ "\n\nDid you mean one of these?\n" ++
        didYouMeanList (findClosestCommands scenarioTrie "contro") ∧
    (commandNotFound scenarioTrie "zzz").message = notFoundBaseMsg "zzz" :=
  ⟨(claim3_didYouMean_message scenarioTrie "contro").1 (by decide),
   (claim3_didYouMean_message scenarioTrie "zzz").2 (by decide)⟩

/-- C4: every diagnostics collection returns a snapshot whose key list is
exactly PLATFORM, RUNTIME, MEM, for every byte-rendering function and every
process or host state. -/
theorem claim4_getSystemData_keys (hb : Nat → String) (s : SystemState) :
    (getSystemData hb s).map Prod.fst = ["PLATFORM", "RUNTIME", "MEM"] := rfl

/-- C5: if hostname resolution fails, the collector behaves exactly as if
the hostname were the empty string and still returns the complete
snapshot; the failure never escalates. -/
theorem claim5_hostname_failure_graceful (hb : Nat → String) (s : SystemState)
    (e : String) (h : s.hostname = Except.error e) :
    getSystemData hb s = getSystemData hb { s with hostname := Except.ok "" } ∧
    (getSystemData hb s).map Prod.fst = ["PLATFORM", "RUNTIME", "MEM"] := by
  constructor
  · simp [getSystemData, h]
  · rfl

/-- Witness for C5 at a concrete failing state. -/
theorem claim5_hostname_failure_graceful_witness :
    getSystemData toString
        ⟨Except.error "lookup failed", ⟨0, 0, 0, 0⟩, "linux", "amd64", "go1.5.1", 4⟩ =
      getSystemData toString
        ⟨Except.ok "", ⟨0, 0, 0, 0⟩, "linux", "amd64", "go1.5.1", 4⟩ ∧
    (getSystemData toString
        ⟨Except.error "lookup failed", ⟨0, 0, 0, 0⟩, "linux", "amd64", "go1.5.1", 4⟩).map
        Prod.fst = ["PLATFORM", "RUNTIME", "MEM"] :=
  claim5_hostname_failure_graceful toString _ "lookup failed" rfl

/-- C6: registering a command whose name already exists fails with a
configuration error and returns the registry unchanged: no partial
mutation of the ordered command list or the trie, and no overwrite. -/
theorem claim6_duplicate_register_no_mutation (r : Registry) (cmd : Command)
    (h : cmd.name ∈ r.commands.map Command.name) :
    registerCommand r cmd = (r, some ("Duplicate command name: " ++ cmd.name)) := by
  have hc : (r.commands.map Command.name).contains cmd.name = true := by
    simpa using h
  simp only [registerCommand, hc, if_true]

/-- Witness for C6: re-registering the name server fails and leaves the
registry untouched. -/
theorem claim6_duplicate_register_no_mutation_witness :
    registerCommand
        ⟨[⟨"server", "u", "d"⟩], TrieNode.empty.insert "server".toList "server"⟩
        ⟨"server", "u2", "d2"⟩ =
      (⟨[⟨"server", "u", "d"⟩], TrieNode.empty.insert "server".toList "server"⟩,
        some "Duplicate command name: server") :=
  claim6_duplicate_register_no_mutation _ _ (by decide)

/-- C7: a process started with effective UID 0 terminates fatally during
init, before main runs, so no command or flag registration side effect is
ever observable. -/
theorem claim7_root_fatal_no_registration (e : Env) (h : e.euid = 0) :
    (runStartup e).fatal.isSome = true ∧
    (runStartup e).registry = Registry.empty ∧ (runStartup e).flags = [] := by
  rcases e with ⟨cu, euid, gv⟩
  subst h
  cases cu <;> simp [runStartup, runInit]

/-- Witness for C7 at a concrete elevated-identity environment. -/
theorem claim7_root_fatal_no_registration_witness :
    (runStartup ⟨Except.ok "user1", 0, true⟩).fatal.isSome = true ∧
    (runStartup ⟨Except.ok "user1", 0, true⟩).registry = Registry.empty ∧
    (runStartup ⟨Except.ok "user1", 0, true⟩).flags = [] :=
  claim7_root_fatal_no_registration ⟨Except.ok "user1", 0, true⟩ rfl

/-- C8: the user identity is resolved first: whenever it cannot be
determined the startup terminates fatally with the identity-lookup cause —
even when the privilege or version checks would also fire — and no later
bootstrap step (registration) runs. -/
theorem claim8_identity_resolved_first (e : Env) (err : String)
    (h : e.currentUser = Except.error err) :
    (runStartup e).fatal = some FatalCause.userLookupFailed ∧
    (runStartup e).registry = Registry.empty ∧ (runStartup e).flags = [] := by
  simp [runStartup, runInit, h]

/-- Witness for C8 at an environment that also runs as root and with an
unsupported runtime: the identity failure still wins. -/
theorem claim8_identity_resolved_first_witness :
    (runStartup ⟨Except.error "no user", 0, false⟩).fatal =
      some FatalCause.userLookupFailed ∧
    (runStartup ⟨Except.error "no user", 0, false⟩).registry = Registry.empty ∧
    (runStartup ⟨Except.error "no user", 0, false⟩).flags = [] :=
  claim8_identity_resolved_first ⟨Except.error "no user", 0, false⟩ "no user" rfl

/-- C9: getFSType is total: it always returns a non-empty string, returns
the mapped filesystem name exactly when the lowercase hexadecimal
rendering of the input is a key of the map, returns UNKNOWN otherwise, and
in particular returns UNKNOWN on every negative input. -/
theorem claim9_getFSType_total (i : Int) :
    getFSType i ≠ "" ∧
    (∀ s, fsType2StringMap.lookup (formatIntHex i) = some s → getFSType i = s) ∧
    (fsType2StringMap.lookup (formatIntHex i) = none → getFSType i = "UNKNOWN") ∧
    (i < 0 → getFSType i = "UNKNOWN") := by
  refine ⟨?_, ?_, ?_, ?_⟩
  · rcases hl : fsType2StringMap.lookup (formatIntHex i) with _ | s
    · simp [getFSType, hl]
    · have hm := mem_of_lookup_eq_some _ _ _ hl
      have hv : ∀ p ∈ fsType2StringMap, p.2 ≠ "" := by decide
      have hs : s ≠ "" := hv (formatIntHex i, s) hm
      simpa [getFSType, hl] using hs
  · intro s hl
    simp [getFSType, hl]
  · intro hl
    simp [getFSType, hl]
  · intro hneg
    have hf : formatIntHex i = "-" ++ (Nat.toDigits 16 i.natAbs).asString := by
      rw [formatIntHex, if_pos hneg]
    have hhead : (formatIntHex i).data.head? = some '-' := by
      rw [hf, String.data_append]
      rfl
    have hnone : fsType2StringMap.lookup (formatIntHex i) = none := by
      refine lookup_none_of_head _ '-' hhead _ ?_
      decide
    simp [getFSType, hnone]

/-- Witness for C9: the EXT4 magic maps to its name and its negation is
unknown. -/
theorem claim9_getFSType_total_witness :
    getFSType 61267 = "EXT4" ∧ getFSType (-61267) = "UNKNOWN" :=
  ⟨(claim9_getFSType_total 61267).2.1 "EXT4" (by decide),
   (claim9_getFSType_total (-61267)).2.2.2 (by decide)⟩

/-- C10: for every trie and input token, findClosestCommands returns
exactly the PrefixMatch result of the underlying trie — same length, same
order, each element unchanged. -/
theorem claim10_findClosestCommands_refines_PrefixMatch (t : TrieNode)
    (command : String) :
    findClosestCommands t command = t.PrefixMatch command := by
  simp [findClosestCommands, foldl_push_eq]

end MinioXL
